import Mathlib

/-!
Verification of the FlowBench sample pipeline (`src/flowbench/simulator.py`).

The `Simulator` class (a `threading.Thread` subclass) is embedded shallowly:

* Python float arithmetic is modelled over `ℝ`.
* The wall clock `time.time()` is an oracle `clock : ℕ → ℝ` giving the
  successive readings taken by the loop; iteration `i` takes reading
  `clock (2*i)` at line 23 and reading `clock (2*i+1)` at line 32.
* The gaussian noise source `random.normalvariate(0, 0.1)` is an oracle
  `noise : ℕ → ℝ` giving the draw consumed on iteration `i`.
* The stop event `self._stop_event` is a `Bool` field for the sequential
  operation semantics, and an oracle `cs : ℕ → Bool` (the value of
  `is_set()` observed at the top-of-loop check of iteration `i`) for the
  loop semantics, because `stop()` runs on another thread.
* A Python callback that may raise an `Exception` is a function into
  `Except PyError Unit`; exceptions propagating out of a statement are the
  `Except.error` branch.
* The loop `run` is unbounded; it is modelled fuel-indexed, with theorems
  quantified over the fuel.
-/

/-- Python exceptions relevant to the Simulator: `RuntimeError`, raised by
`threading.Thread.start` when the thread was already started, and an
arbitrary `Exception` instance raised by the user callback. -/
inductive PyError
  | runtimeError
  | exception

/-- State of a `Simulator` object (`simulator.py`, lines 8-19).
`callback` and `interval` are the constructor arguments stored on `self`
(lines 16-17); `t0` is `self._t0` (line 19); `stopSet` is whether
`self._stop_event` is set (line 18); `started` is the started flag of the
inherited `threading.Thread` (set by `start()`, checked by it to reject a
second call). -/
structure Simulator where
  callback : ℝ → ℝ → Except PyError Unit
  interval : ℝ
  t0 : ℝ
  stopSet : Bool
  started : Bool

/-- Default value of the `interval` parameter of `Simulator.__init__`
(line 14: `interval: float = 0.1`). -/
def defaultInterval : ℝ := 0.1

/-- Constructor `Simulator.__init__` (lines 14-19). `now` is the
`time.time()` reading taken at line 19 and stored into `self._t0`.
The body only assigns fields: there is no branch and no validation of
`interval`, so construction is a total function. -/
def Simulator.init (callback : ℝ → ℝ → Except PyError Unit)
    (interval : ℝ) (now : ℝ) : Simulator :=
  { callback := callback
    interval := interval
    t0 := now
    stopSet := false
    started := false }

/-- Inherited `threading.Thread.start`: raises `RuntimeError` if the thread
was already started, otherwise marks it started and begins executing `run`
on the new thread. It reads no clock and writes no other field. -/
def startOp (s : Simulator) : Except PyError Simulator :=
  if s.started then Except.error PyError.runtimeError
  else Except.ok { s with started := true }

/-- Calling `start()` at wall-clock moment `now`. The moment is irrelevant:
`threading.Thread.start` takes no clock reading, so the parameter is
unused. This definition exists to state claims about what `start()` does
or does not record at the time it is called. -/
def startAt (now : ℝ) (s : Simulator) : Except PyError Simulator :=
  startOp s

/-- Method `Simulator.stop` (lines 37-38): `self._stop_event.set()`.
Setting an already-set `threading.Event` leaves it set. -/
def stopOp (s : Simulator) : Simulator :=
  { s with stopSet := true }

/-- External operations a caller can perform on a `Simulator` object. -/
inductive Op
  | start
  | stop

/-- Effect of one external operation on the object state. A `start` call
on an already-started thread raises `RuntimeError` to the caller and
leaves the object unchanged; `stop` sets the stop event. -/
def applyOp : Op → Simulator → Simulator
  | Op.start, s =>
    match startOp s with
    | Except.ok s2 => s2
    | Except.error _ => s
  | Op.stop, s => stopOp s

/-- Effect of a sequence of external operations, applied left to right. -/
def applyOps (ops : List Op) (s : Simulator) : Simulator :=
  ops.foldl (fun s op => applyOp op s) s

/-- Signal value computed on one tick (lines 25-30), as a function of the
elapsed time `t` (line 23) and the gaussian draw `noise` (line 29). -/
noncomputable def generator (t : ℝ) (noise : ℝ) : ℝ :=
  let baseline : ℝ := 5.0
  let drift := 0.02 * t
  let periodic := 2.0 * Real.sin (2 * Real.pi * 0.2 * t)
  let fast := 0.5 * Real.sin (2 * Real.pi * 2.0 * t)
  baseline + drift + periodic + fast + noise

/-- Lines 31-34: the callback invocation wrapped in
`try: ... except Exception: pass`. A callback that returns normally or
raises an `Exception` both leave the surrounding statement completing
normally; the error branch of the result is therefore never taken. -/
def guardedCall (s : Simulator) (ts v : ℝ) : Except PyError Unit :=
  match s.callback ts v with
  | Except.ok u => Except.ok u
  | Except.error _ => Except.ok ()

/-- Method `Simulator.run` (lines 21-35), fuel-indexed. Arguments after
the oracles: current object state, current iteration index `i`, remaining
fuel. Each iteration first checks the stop event (`cs i`, line 22) and
exits if set; otherwise it computes `t = time.time() - self._t0`
(line 23, reading `clock (2*i)`), the signal `value` (lines 25-30 with
draw `noise i`), and invokes the callback with a fresh `time.time()`
reading (line 32, `clock (2*i+1)`) under the try/except. An exception
escaping the body would abort the loop (Python would terminate the
thread); `guardedCall` never produces one. The returned list records, in
order, each callback invocation as `(iteration, timestamp, value)`. -/
noncomputable def runLoop (clock noise : ℕ → ℝ) (cs : ℕ → Bool) :
    Simulator → ℕ → ℕ → Simulator × List (ℕ × ℝ × ℝ)
  | s, _, 0 => (s, [])
  | s, i, n + 1 =>
    if cs i then (s, [])
    else
      let t := clock (2 * i) - s.t0
      let value := generator t (noise i)
      let ts := clock (2 * i + 1)
      match guardedCall s ts value with
      | Except.error _ => (s, [(i, ts, value)])
      | Except.ok _ =>
        let r := runLoop clock noise cs s (i + 1) n
        (r.1, (i, ts, value) :: r.2)

/-- A callback that always succeeds, for concrete instantiations. -/
def cbOk : ℝ → ℝ → Except PyError Unit := fun _ _ => Except.ok ()

/-- A callback that raises an `Exception` on every invocation, for
concrete instantiations. -/
def cbRaise : ℝ → ℝ → Except PyError Unit := fun _ _ => Except.error PyError.exception

/-! ### Helper lemmas about the loop -/

/-- The try/except of lines 31-34 completes normally whatever the callback
does: a normal return passes through, an `Exception` is swallowed. -/
theorem guardedCall_ok (s : Simulator) (ts v : ℝ) :
    guardedCall s ts v = Except.ok () := by
  unfold guardedCall
  cases s.callback ts v with
  | ok u => cases u; rfl
  | error e => rfl

/-- Unfolding equation for one loop iteration, with the try/except already
collapsed using guardedCall_ok. -/
theorem runLoop_succ (clock noise : ℕ → ℝ) (cs : ℕ → Bool) (s : Simulator) (i n : ℕ) :
    runLoop clock noise cs s i (n + 1) =
      if cs i then (s, [])
      else
        ((runLoop clock noise cs s (i + 1) n).1,
          (i, clock (2 * i + 1), generator (clock (2 * i) - s.t0) (noise i)) ::
            (runLoop clock noise cs s (i + 1) n).2) := by
  rw [runLoop]
  by_cases h : cs i
  · simp [h]
  · simp [h, guardedCall_ok]

/-- The loop body assigns no field of self: the object state after any
number of iterations is the state before. -/
theorem runLoop_state (clock noise : ℕ → ℝ) (cs : ℕ → Bool) :
    ∀ (n i : ℕ) (s : Simulator), (runLoop clock noise cs s i n).1 = s := by
  intro n
  induction n with
  | zero => intro i s; rfl
  | succ n ih =>
    intro i s
    rw [runLoop_succ]
    by_cases h : cs i
    · simp [h]
    · simp [h, ih]

/-- Every recorded callback invocation (iteration, timestamp, value) comes
from an iteration at or after the starting index, whose top-of-loop check
read the stop event as unset, and its timestamp is the second clock
reading of that iteration. -/
theorem runLoop_mem (clock noise : ℕ → ℝ) (cs : ℕ → Bool) :
    ∀ (n i : ℕ) (s : Simulator) (e : ℕ × ℝ × ℝ),
      e ∈ (runLoop clock noise cs s i n).2 →
      i ≤ e.1 ∧ cs e.1 = false ∧ e.2.1 = clock (2 * e.1 + 1) := by
  intro n
  induction n with
  | zero => intro i s e he; simp [runLoop] at he
  | succ n ih =>
    intro i s e he
    rw [runLoop_succ] at he
    cases hcs : cs i with
    | true => rw [hcs] at he; simp at he
    | false =>
      rw [hcs] at he
      simp only [if_neg Bool.false_ne_true, List.mem_cons] at he
      rcases he with he | he
      · subst he
        exact ⟨le_refl i, hcs, rfl⟩
      · obtain ⟨h1, h2, h3⟩ := ih (i + 1) s e he
        exact ⟨le_trans (Nat.le_succ i) h1, h2, h3⟩

/-- Iteration indices of the recorded invocations are strictly increasing
along the list: the loop performs its ticks one after the other. -/
theorem runLoop_pairwise_idx (clock noise : ℕ → ℝ) (cs : ℕ → Bool) :
    ∀ (n i : ℕ) (s : Simulator),
      ((runLoop clock noise cs s i n).2).Pairwise (fun a b => a.1 < b.1) := by
  intro n
  induction n with
  | zero => intro i s; simp [runLoop]
  | succ n ih =>
    intro i s
    rw [runLoop_succ]
    cases hcs : cs i with
    | true => simp
    | false =>
      simp only [if_neg Bool.false_ne_true]
      refine List.Pairwise.cons ?_ (ih (i + 1) s)
      intro b hb
      have h1 := (runLoop_mem clock noise cs n (i + 1) s b hb).1
      show i < b.1
      omega

/-! ### Claim theorems -/

/-- C1: any exception raised by the registered callback is caught at the
call site inside the loop (lines 31-34) and discarded; for a callback
that raises on every invocation the loop still performs every tick (the
recorded invocation list has length equal to the fuel, so the loop never
exits early), and the Simulator state is unchanged by the failures. -/
theorem c1_callback_failure_contained (clock noise : ℕ → ℝ) (s : Simulator) (i n : ℕ)
    (hraise : ∀ ts v, s.callback ts v = Except.error PyError.exception) :
    (∀ ts v, guardedCall s ts v = Except.ok ()) ∧
    (runLoop clock noise (fun _ => false) s i n).1 = s ∧
    (runLoop clock noise (fun _ => false) s i n).2.length = n := by
  refine ⟨fun ts v => guardedCall_ok s ts v, runLoop_state clock noise _ n i s, ?_⟩
  induction n generalizing i with
  | zero => rfl
  | succ n ih =>
    rw [runLoop_succ]
    simpa using ih (i + 1)

/-- Witness for C1: a Simulator whose callback raises on every invocation,
run for three ticks with a never-set stop event, calls back three times
and ends in its initial state. -/
theorem c1_witness :
    (Simulator.init cbRaise 0.1 0).callback 1 2 = Except.error PyError.exception ∧
    ((runLoop Nat.cast (fun _ => 0) (fun _ => false) (Simulator.init cbRaise 0.1 0) 0 3).1
        = Simulator.init cbRaise 0.1 0 ∧
      (runLoop Nat.cast (fun _ => 0) (fun _ => false)
          (Simulator.init cbRaise 0.1 0) 0 3).2.length = 3) :=
  ⟨rfl,
    (c1_callback_failure_contained Nat.cast (fun _ => 0) (Simulator.init cbRaise 0.1 0) 0 3
      (fun _ _ => rfl)).2⟩

/-- C2: on a tick with elapsed time t and gaussian draw n, the computed
value is 5.0 + 0.02*t + 2.0*sin(2*pi*0.2*t) + 0.5*sin(2*pi*2.0*t) + n;
the generator is a pure function of t and the draw, with no other inputs
and no side effects. -/
theorem c2_generator_formula (t n : ℝ) :
    generator t n =
      5.0 + 0.02 * t + 2.0 * Real.sin (2 * Real.pi * 0.2 * t)
        + 0.5 * Real.sin (2 * Real.pi * 2.0 * t) + n := rfl

/-- C7: for all t >= 0 the noiseless generator value lies within
[5.0 + 0.02*t - 2.5, 5.0 + 0.02*t + 2.5]: the two sinusoids never move
the value more than 2.5 away from baseline plus drift. -/
theorem c7_noiseless_bounded (t : ℝ) (ht : 0 ≤ t) :
    5.0 + 0.02 * t - 2.5 ≤ generator t 0 ∧ generator t 0 ≤ 5.0 + 0.02 * t + 2.5 := by
  have h1 := Real.neg_one_le_sin (2 * Real.pi * 0.2 * t)
  have h2 := Real.sin_le_one (2 * Real.pi * 0.2 * t)
  have h3 := Real.neg_one_le_sin (2 * Real.pi * 2.0 * t)
  have h4 := Real.sin_le_one (2 * Real.pi * 2.0 * t)
  simp only [generator]
  constructor <;> linarith

/-- Witness for C7 at t = 0. -/
theorem c7_witness :
    (0 : ℝ) ≤ 0 ∧
    (5.0 + 0.02 * 0 - 2.5 ≤ generator 0 0 ∧ generator 0 0 ≤ 5.0 + 0.02 * 0 + 2.5) :=
  ⟨le_refl 0, c7_noiseless_bounded 0 (le_refl 0)⟩

/-- A list of invocation records with strictly increasing iteration
indices, all of whose indices equal k, has at most one element. -/
theorem length_le_one_of_fst_lt_fst_eq {l : List (ℕ × ℝ × ℝ)} {k : ℕ}
    (hp : l.Pairwise (fun a b => a.1 < b.1)) (he : ∀ e ∈ l, e.1 = k) :
    l.length ≤ 1 := by
  cases l with
  | nil => simp
  | cons a t =>
    cases t with
    | nil => simp
    | cons b t2 =>
      exfalso
      rcases List.pairwise_cons.mp hp with ⟨hab, _⟩
      have h1 := hab b (List.mem_cons_self b t2)
      have h2 := he a (List.mem_cons_self a _)
      have h3 := he b (List.mem_cons_of_mem a (List.mem_cons_self b t2))
      omega

/-- C5: when the successive wall-clock readings are strictly increasing,
the timestamps handed to the callback are strictly increasing across
consecutive invocations; delivery is one at a time, in list order, by the
single sequential loop. -/
theorem c5_timestamps_strictly_increasing (clock noise : ℕ → ℝ) (cs : ℕ → Bool)
    (s : Simulator) (i n : ℕ) (hclock : StrictMono clock) :
    ((runLoop clock noise cs s i n).2.map (fun e => e.2.1)).Pairwise (fun a b => a < b) := by
  have hp2 : ((runLoop clock noise cs s i n).2).Pairwise (fun a b => a.2.1 < b.2.1) := by
    refine (runLoop_pairwise_idx clock noise cs n i s).imp_of_mem ?_
    intro a b ha hb hab
    have h1 := (runLoop_mem clock noise cs n i s a ha).2.2
    have h2 := (runLoop_mem clock noise cs n i s b hb).2.2
    rw [h1, h2]
    exact hclock (by omega)
  exact hp2.map _ (fun a b h => h)

/-- Witness for C5: with clock readings 0, 1, 2, ... a three-tick run
delivers strictly increasing timestamps. -/
theorem c5_witness :
    StrictMono (Nat.cast : ℕ → ℝ) ∧
    ((runLoop Nat.cast (fun _ => 0) (fun _ => false)
        (Simulator.init cbOk 0.1 0) 0 3).2.map (fun e => e.2.1)).Pairwise
      (fun a b => a < b) :=
  ⟨Nat.strictMono_cast,
    c5_timestamps_strictly_increasing Nat.cast (fun _ => 0) (fun _ => false)
      (Simulator.init cbOk 0.1 0) 0 3 Nat.strictMono_cast⟩

/-- C6: if from check k+1 onwards every top-of-loop check reads the stop
event as set (the signal was set no later than during iteration k), then
at most one recorded callback invocation has iteration index k or later:
the in-flight tick is the only possible delivery after the signal, and
the loop then exits. -/
theorem c6_stop_at_most_one_more (clock noise : ℕ → ℝ) (cs : ℕ → Bool) (s : Simulator)
    (i n k : ℕ) (hstop : ∀ j, k < j → cs j = true) :
    ((runLoop clock noise cs s i n).2.filter (fun e => decide (k ≤ e.1))).length ≤ 1 := by
  have hpf := (runLoop_pairwise_idx clock noise cs n i s).filter
    (fun e => decide (k ≤ e.1))
  have hk : ∀ e ∈ (runLoop clock noise cs s i n).2.filter (fun e => decide (k ≤ e.1)),
      e.1 = k := by
    intro e he
    rw [List.mem_filter] at he
    obtain ⟨hmem, hdec⟩ := he
    have hke : k ≤ e.1 := of_decide_eq_true hdec
    have h2 := (runLoop_mem clock noise cs n i s e hmem).2.1
    by_contra hne
    have hlt : k < e.1 := lt_of_le_of_ne hke (fun h => hne h.symm)
    rw [hstop e.1 hlt] at h2
    simp at h2
  exact length_le_one_of_fst_lt_fst_eq hpf hk

/-- Witness for C6: the stop event reads set from check 2 onwards; over a
four-tick fuel budget the invocations with iteration index at least 1
number at most one. -/
theorem c6_witness :
    (fun j => decide (1 < j)) 2 = true ∧
    ((runLoop Nat.cast (fun _ => 0) (fun j => decide (1 < j))
        (Simulator.init cbOk 0.1 0) 0 4).2.filter (fun e => decide (1 ≤ e.1))).length ≤ 1 :=
  ⟨rfl,
    c6_stop_at_most_one_more Nat.cast (fun _ => 0) (fun j => decide (1 < j))
      (Simulator.init cbOk 0.1 0) 0 4 1 (fun j hj => decide_eq_true hj)⟩

/-- C8: the stop signal is never cleared: every sequence of start/stop
operations applied to an object whose stop event is set leaves it set
(stop only sets it, start never touches it, and no method calls clear),
and a loop iteration whose check reads the event as set records no
invocation, so a stopped Simulator delivers nothing more and a fresh
instance is needed for a new cycle. -/
theorem c8_not_restartable (ops : List Op) (s : Simulator) (hs : s.stopSet = true)
    (clock noise : ℕ → ℝ) (cs : ℕ → Bool) (s2 : Simulator) (i n j : ℕ)
    (hj : cs j = true) :
    (applyOps ops s).stopSet = true ∧
    ∀ e ∈ (runLoop clock noise cs s2 i n).2, e.1 ≠ j := by
  constructor
  · induction ops generalizing s with
    | nil => exact hs
    | cons op t ih =>
      have hstep : (applyOp op s).stopSet = true := by
        cases op with
        | start =>
          simp only [applyOp, startOp]
          by_cases h : s.started
          · simp [h, hs]
          · simp [h, hs]
        | stop => rfl
      exact ih _ hstep
  · intro e he
    have h2 := (runLoop_mem clock noise cs n i s2 e he).2.1
    intro hEq
    rw [hEq, hj] at h2
    simp at h2

/-- Witness for C8: starting from a stopped object, start-stop-start
leaves the stop event set. -/
theorem c8_witness :
    (stopOp (Simulator.init cbOk 0.1 0)).stopSet = true ∧
    (fun j => decide (j = 2)) 2 = true ∧
    (applyOps [Op.start, Op.stop, Op.start]
        (stopOp (Simulator.init cbOk 0.1 0))).stopSet = true :=
  ⟨rfl, rfl,
    (c8_not_restartable [Op.start, Op.stop, Op.start] (stopOp (Simulator.init cbOk 0.1 0))
      rfl Nat.cast (fun _ => 0) (fun j => decide (j = 2))
      (Simulator.init cbOk 0.1 0) 0 3 2 rfl).1⟩

/-- Counterexample to C3 as stated: a Simulator constructed when the clock
read 10 and started when the clock read 20 has start_time (self._t0)
equal to 10, the construction-time reading, not 20: start() records
nothing, the reference point was recorded earlier, by the constructor. -/
theorem c3_counterexample :
    startAt 20 (Simulator.init cbOk 0.1 10) =
      Except.ok { callback := cbOk, interval := 0.1, t0 := 10,
                  stopSet := false, started := true } ∧
    (10 : ℝ) ≠ 20 := by
  refine ⟨rfl, ?_⟩
  norm_num

/-- C3 (amended): the reference point t0 from which elapsed time is
computed is recorded as the current time by the constructor (line 19 of
init), not by start(): construction stores the construction-time clock
reading, and start() leaves every field except the started flag
unchanged. -/
theorem c3_t0_recorded_at_construction (cb : ℝ → ℝ → Except PyError Unit)
    (iv now now2 : ℝ) :
    (Simulator.init cb iv now).t0 = now ∧
    startAt now2 (Simulator.init cb iv now) =
      Except.ok { Simulator.init cb iv now with started := true } :=
  ⟨rfl, rfl⟩

/-- Counterexample to C4 as stated: calling start() on an already-started
Simulator raises RuntimeError (threading.Thread.start may be called at
most once per object), so double-start is an error, not a no-op. -/
theorem c4_counterexample :
    startOp (applyOp Op.start (Simulator.init cbOk 0.1 0)) =
      Except.error PyError.runtimeError := rfl

/-- C4 (amended): calling stop() on an already-stopped Simulator is a
no-op (state unchanged, no error); calling start() on an already-started
Simulator raises RuntimeError and changes no state (so no second loop is
created and callback delivery is unaffected), but it is an error rather
than a silent no-op. -/
theorem c4_double_stop_noop_double_start_raises (s : Simulator) :
    (s.stopSet = true → stopOp s = s) ∧
    (s.started = true →
      startOp s = Except.error PyError.runtimeError ∧ applyOp Op.start s = s) := by
  constructor
  · intro h
    cases s with
    | mk cb iv t0 ss st =>
      have h2 : ss = true := h
      subst h2
      rfl
  · intro h
    refine ⟨?_, ?_⟩
    · simp [startOp, h]
    · simp [applyOp, startOp, h]

/-- Witness for C4 (amended) on a started-then-stopped Simulator. -/
theorem c4_witness :
    (stopOp (applyOp Op.start (Simulator.init cbOk 0.1 0))).stopSet = true ∧
    (stopOp (applyOp Op.start (Simulator.init cbOk 0.1 0))).started = true ∧
    stopOp (stopOp (applyOp Op.start (Simulator.init cbOk 0.1 0))) =
      stopOp (applyOp Op.start (Simulator.init cbOk 0.1 0)) ∧
    startOp (stopOp (applyOp Op.start (Simulator.init cbOk 0.1 0))) =
      Except.error PyError.runtimeError ∧
    applyOp Op.start (stopOp (applyOp Op.start (Simulator.init cbOk 0.1 0))) =
      stopOp (applyOp Op.start (Simulator.init cbOk 0.1 0)) :=
  ⟨rfl, rfl,
    (c4_double_stop_noop_double_start_raises
      (stopOp (applyOp Op.start (Simulator.init cbOk 0.1 0)))).1 rfl,
    ((c4_double_stop_noop_double_start_raises
      (stopOp (applyOp Op.start (Simulator.init cbOk 0.1 0)))).2 rfl).1,
    ((c4_double_stop_noop_double_start_raises
      (stopOp (applyOp Op.start (Simulator.init cbOk 0.1 0)))).2 rfl).2⟩

/-- C9: a Simulator constructed without specifying interval gets the fixed
default 0.1, which lies in [0.05, 0.1]; the interval is stored at
construction and no external operation and no loop iteration ever
changes it. -/
theorem c9_interval_default_and_fixed :
    defaultInterval = 0.1 ∧ 0.05 ≤ defaultInterval ∧ defaultInterval ≤ 0.1 ∧
    (∀ cb iv now, (Simulator.init cb iv now).interval = iv) ∧
    (∀ ops s, (applyOps ops s).interval = s.interval) ∧
    (∀ clock noise cs s i n, ((runLoop clock noise cs s i n).1).interval = s.interval) := by
  refine ⟨rfl, by norm_num [defaultInterval], by norm_num [defaultInterval],
    fun cb iv now => rfl, ?_, ?_⟩
  · intro ops
    induction ops with
    | nil => intro s; rfl
    | cons op t ih =>
      intro s
      have hstep : applyOps (op :: t) s = applyOps t (applyOp op s) := rfl
      rw [hstep, ih]
      cases op with
      | start =>
        simp only [applyOp, startOp]
        by_cases h : s.started
        · simp [h]
        · simp [h]
      | stop => rfl
  · intro clock noise cs s i n
    rw [runLoop_state]

/-- C10: construction succeeds for every interval value, including zero
and negative ones: init is a total function with no branch, it stores
the interval unvalidated and initialises the stop event unset and the
thread unstarted; a non-positive interval can only matter later, in the
sleep inside the loop. -/
theorem c10_no_interval_validation (cb : ℝ → ℝ → Except PyError Unit) (iv now : ℝ) :
    Simulator.init cb iv now =
      { callback := cb, interval := iv, t0 := now, stopSet := false, started := false } ∧
    (Simulator.init cb 0 now).interval = 0 ∧
    (Simulator.init cb (-1) now).interval = -1 :=
  ⟨rfl, rfl, rfl⟩
